import Mathlib

/-!
Verification of the `real_estate_hungary` scraper core
(`src/real_estate_hungary.py`) against its natural-language specification.

The Python code is shallowly embedded: pure string/list manipulations become
Lean functions over `String` / `List Char`, Python `dict`s become ordered
association lists with insertion-order update semantics, raised exceptions
become `Except PyErr`, and Python `None` becomes `Option.none`.  Machine
floats produced by Python's `float(...)` are modelled as `Rat` (the listing
coordinates are plain decimal literals); Python `int(...)` truncation is
modelled with `Int.tdiv`.
-/

/-! ## Python runtime model -/

/-- Models the Python exceptions raised by the embedded code paths. -/
inductive PyErr where
  | valueError : String → PyErr
  | typeError : PyErr
  | indexError : PyErr
  | keyError : PyErr
  | attributeError : PyErr
  | httpError : Nat → String → PyErr
  deriving DecidableEq, Repr

/-- Models whether a `PyErr` is a Python `ValueError`. -/
def PyErr.isValueErr : PyErr → Bool
  | .valueError _ => true
  | _ => false

/-- Models the Python values that can be passed as the `page_num` argument:
an `int`, a `float`, a `str`, or `None`. -/
inductive PyVal where
  | intV : Int → PyVal
  | floatV : Rat → PyVal
  | strV : String → PyVal
  | noneV : PyVal
  deriving DecidableEq, Repr

/-- Models Python whitespace as recognised by `str.strip()` on the inputs
that occur here (space, tab, newline, carriage return, form feed, vtab). -/
def isPySpace (c : Char) : Bool :=
  c = ' ' || c = '\t' || c = '\n' || c = '\r' || c = '\x0b' || c = '\x0c'

/-- Models Python `str.strip()` on a character list. -/
def pyStripList (l : List Char) : List Char :=
  ((l.dropWhile isPySpace).reverse.dropWhile isPySpace).reverse

/-- Models Python `str.strip()`. -/
def pyStrip (s : String) : String :=
  String.mk (pyStripList s.toList)

/-- Decimal digit test, as in Python's integer/float literal grammar. -/
def isDigitChar (c : Char) : Bool :=
  '0' ≤ c && c ≤ '9'

/-- Value of a list of decimal digits, most significant first. -/
def digitsToNat (l : List Char) : Nat :=
  l.foldl (fun a c => a * 10 + (c.toNat - 48)) 0

/-- Parses a nonempty all-digit run, as accepted inside `int()` / `float()`. -/
def parseDigitRun (l : List Char) : Option Nat :=
  if !l.isEmpty && l.all isDigitChar then some (digitsToNat l) else none

/-- Models Python `int(s)` for a string argument: surrounding whitespace is
stripped, then an optional sign followed by a nonempty digit run is accepted;
anything else raises `ValueError` (modelled as `none`). -/
def pyIntOfString (s : String) : Option Int :=
  match pyStripList s.toList with
  | '+' :: ds => (parseDigitRun ds).map (fun n => (n : Int))
  | '-' :: ds => (parseDigitRun ds).map (fun n => -(n : Int))
  | ds => (parseDigitRun ds).map (fun n => (n : Int))

/-- Truncation toward zero, the behaviour of Python `int(float)`.  A `Rat`
is stored with positive denominator and reduced, so `Int.tdiv` of numerator
by denominator is exactly truncation toward zero. -/
def ratTrunc (q : Rat) : Int :=
  Int.tdiv q.num (q.den : Int)

/-- Models the Python builtin `int(x)` on the modelled value domain:
`int` passes through, `float` truncates toward zero, `str` parses an
integer literal or raises `ValueError`, `None` raises `TypeError`. -/
def pyInt : PyVal → Except PyErr Int
  | .intV n => .ok n
  | .floatV q => .ok (ratTrunc q)
  | .strV s =>
    match pyIntOfString s with
    | some n => .ok n
    | none => .error (.valueError ("invalid literal for int() with base 10: " ++ s))
  | .noneV => .error .typeError

/-- Embeds the `page_num` property setter of `RealEstateHungaryPageListings`
(src/real_estate_hungary.py lines 203-208): `int(page_num)` is attempted,
a `ValueError` is caught and re-raised as
`ValueError("Page number must be integer.")`, and every other exception
(e.g. the `TypeError` from `int(None)`) propagates unchanged. -/
def page_num_setter (v : PyVal) : Except PyErr Int :=
  match pyInt v with
  | .ok n => .ok n
  | .error (.valueError _) => .error (.valueError "Page number must be integer.")
  | .error e => .error e

/-! ## City normalization (`remove_spec_chars`, the `city` setter) -/

/-- Embeds the character translation of `remove_spec_chars`
(src/real_estate_hungary.py lines 13-18): `str.maketrans` of the table
SPECIAL = 'äáéíóőúüű' to ASCII = 'aaeioouuu'; every other character is
left unchanged. -/
def translateChar (c : Char) : Char :=
  if c = 'ä' then 'a' else if c = 'á' then 'a' else if c = 'é' then 'e'
  else if c = 'í' then 'i' else if c = 'ó' then 'o' else if c = 'ő' then 'o'
  else if c = 'ú' then 'u' else if c = 'ü' then 'u' else if c = 'ű' then 'u'
  else c

/-- Embeds `remove_spec_chars`: `s.translate(transtab)`, i.e. the character
translation applied position-wise. -/
def remove_spec_chars (s : String) : String :=
  String.mk (s.toList.map translateChar)

/-- Models Python `str.lower()` character-wise on the character range
relevant to Hungarian city names: ASCII capitals and the capitals of the
accented letters in `remove_spec_chars`'s table; other characters are left
unchanged. -/
def pyLowerChar (c : Char) : Char :=
  if c = 'Ä' then 'ä' else if c = 'Á' then 'á' else if c = 'É' then 'é'
  else if c = 'Í' then 'í' else if c = 'Ó' then 'ó' else if c = 'Ő' then 'ő'
  else if c = 'Ú' then 'ú' else if c = 'Ü' then 'ü' else if c = 'Ű' then 'ű'
  else if 'A' ≤ c ∧ c ≤ 'Z' then Char.ofNat (c.toNat + 32)
  else c

/-- Models Python `str.lower()` (character-wise, see `pyLowerChar`). -/
def pyLower (s : String) : String :=
  String.mk (s.toList.map pyLowerChar)

/-- Embeds the `city` property setter of `RealEstateHungaryPageListings`
(src/real_estate_hungary.py lines 163-165): `remove_spec_chars(city.lower())`. -/
def city_setter (s : String) : String :=
  remove_spec_chars (pyLower s)

/-! ## Listing Parser construction (`RealEstateHungary.__init__`) -/

/-- Embeds the detail-page fetch in `RealEstateHungary.__init__`
(src/real_estate_hungary.py lines 331-335).  The fetch outcome is either
parsed HTML or an `HTTPError` with a status code.  The `except HTTPError`
clause re-raises only when the code is 404 (with the sold/rent/edited
message); for any other `HTTPError` the clause body does nothing, so the
exception is suppressed and `__init__` returns with `self.parsed_html`
never assigned — modelled as `Except.ok Option.none`. -/
def reh_init_fetch (property_url : String) (fetch : Except Nat String) :
    Except PyErr (Option String) :=
  match fetch with
  | .ok html => .ok (some html)
  | .error code =>
    if code = 404 then
      .error (.httpError 404 "Property does not exist, probably already sold/rent or being edited")
    else
      .ok none

/-! ## `is_active` (Listing Parser) -/

/-- The two supported locales. -/
inductive Lang where
  | hun : Lang
  | eng : Lang
  deriving DecidableEq, Repr

/-- Embeds `RealEstateHungary._inactive_text_exist`
(src/real_estate_hungary.py lines 350-355).  `inactiveDiv` is the text of
the `div.inactive-text` element when `find` locates one, `Option.none` when
it does not.  For 'hun', a missing element makes `.get_text()` an attribute
access on `None`, raising `AttributeError`; a found element yields
`True if inactive_text else False` (string truthiness).  For 'eng' the
function returns Python `None` (modelled `Except.ok Option.none`). -/
def inactive_text_exist (lang : Lang) (inactiveDiv : Option String) :
    Except PyErr (Option Bool) :=
  match lang with
  | .hun =>
    match inactiveDiv with
    | none => .error .attributeError
    | some t => .ok (some (t ≠ ""))
  | .eng => .ok none

/-- Embeds the `is_active` property (src/real_estate_hungary.py lines
357-367).  For 'hun': `is_ad_active` starts `True`, is set `False` when
`_inactive_text_exist()` is truthy, and `AttributeError` is caught and
ignored.  For 'eng': the value of `_inactive_text_exist()` — Python `None`
— is returned directly.  The result models the returned Python value
(`Option.none` being Python `None`). -/
def is_active (lang : Lang) (inactiveDiv : Option String) : Option Bool :=
  match lang with
  | .hun =>
    match inactive_text_exist .hun inactiveDiv with
    | .error _ => some true
    | .ok (some b) => if b then some false else some true
    | .ok none => some true
  | .eng => none

/-! ## Page listings (`get_page_listings` and id accessors) -/

/-- One result card of the Hungarian listings markup: the
`data-id` / `data-cluster-id` attributes of the card's grandparent
(`.get` yields `None` when the attribute is absent) and the card link's
`href`. -/
structure HunCard where
  dataId : Option String
  dataClusterId : Option String
  href : String
  deriving DecidableEq, Repr

/-- The English listings markup, as consumed by `get_page_listings`:
`href`s of the `Apartment__details` anchors and `data-apartment-id`s of the
`Apartment--favorite` anchors. -/
structure EngListingsHtml where
  detail_hrefs : List String
  favorite_ids : List (Option String)
  deriving DecidableEq, Repr

/-- A parsed search-results page, per locale. -/
inductive ListingsHtml where
  | eng : EngListingsHtml → ListingsHtml
  | hun : List HunCard → ListingsHtml
  deriving DecidableEq, Repr

/-- Models Python `str.lstrip('/')`. -/
def lstripSlashes (s : String) : String :=
  String.mk (s.toList.dropWhile (fun c => c = '/'))

/-- The dictionary returned by `get_page_listings`
(src/real_estate_hungary.py lines 236-249): the `cluster_ids` key is only
present for the Hungarian page (`Option.none` models an absent key). -/
structure PageListingsDict where
  property_urls : List String
  property_ids : List (Option String)
  cluster_ids : Option (List (Option String))
  deriving DecidableEq, Repr

/-- Embeds `get_page_listings`: for 'eng' the dict has `property_urls` and
`property_ids` only; for 'hun' all three lists are built from the same card
list.  URLs are the base URL concatenated with the left-slash-stripped href. -/
def get_page_listings (baseUrl : String) : ListingsHtml → PageListingsDict
  | .eng p =>
    { property_urls := p.detail_hrefs.map (fun h => baseUrl ++ lstripSlashes h)
      property_ids := p.favorite_ids
      cluster_ids := none }
  | .hun cards =>
    { property_ids := cards.map (fun c => c.dataId)
      cluster_ids := some (cards.map (fun c => c.dataClusterId))
      property_urls := cards.map (fun c => baseUrl ++ lstripSlashes c.href) }

/-- Embeds `get_property_ids` (src/real_estate_hungary.py lines 251-253). -/
def get_property_ids (baseUrl : String) (h : ListingsHtml) : List (Option String) :=
  (get_page_listings baseUrl h).property_ids

/-- Embeds `get_cluster_ids` (src/real_estate_hungary.py lines 255-259):
`page_listings.get('cluster_ids', [None,]*len(ids))` with `ids` the
property ids. -/
def get_cluster_ids (baseUrl : String) (h : ListingsHtml) : List (Option String) :=
  let ids := get_property_ids baseUrl h
  match (get_page_listings baseUrl h).cluster_ids with
  | some cl => cl
  | none => List.replicate ids.length none

/-- Embeds `get_property_urls` (src/real_estate_hungary.py lines 261-263). -/
def get_property_urls (baseUrl : String) (h : ListingsHtml) : List String :=
  (get_page_listings baseUrl h).property_urls

/-! ## Deduplication and `listings_to_df` -/

/-- One row of `pd.DataFrame(self.get_page_listings())` as iterated by
`listings_to_df`.  The frame's column set depends on the locale: `'hun'`
frames have columns `property_ids`, `cluster_ids`, `property_urls`, while
`'eng'` frames lack the `cluster_ids` column entirely (see
`get_page_listings` / `PageListingsDict`).  Whether that column exists is
carried separately by the frame (`has_cluster_col` below), not by the row:
the `cluster_ids` field here is only ever read when the column exists —
on a column-less frame the row unpacking raises `KeyError` before any
field of this structure is consumed. -/
structure PageRow where
  property_ids : Option String
  cluster_ids : Option String
  property_urls : String
  deriving DecidableEq, Repr

/-- Whether `pd.DataFrame(self.get_page_listings())` has a `cluster_ids`
column: exactly when the dict has the key — `true` for `'hun'`, `false`
for `'eng'` pages. -/
def hasClusterCol (d : PageListingsDict) : Bool :=
  d.cluster_ids.isSome

/-- Embeds `_check_unique_ids` (src/real_estate_hungary.py lines 285-291):
if the supplied existing-record table is non-empty, keep the page rows whose
`property_urls` is not in the table's URL column (`~isin`); an empty table
returns the page rows unchanged. -/
def check_unique_ids (page : List PageRow) (in_df : List String) : List PageRow :=
  if !in_df.isEmpty then
    page.filter (fun r => !(in_df.contains r.property_urls))
  else
    page

/-- Embeds the accumulation loop of `listings_to_df` (src lines 298-309).
Each iterated row is unpacked first —
`r['property_ids'], r['cluster_ids'], r['property_urls']` (line 302) —
which raises `KeyError` when the frame has no `cluster_ids` column (the
English locale, `has_cluster_col = false`).  Otherwise the row's record is
appended; then, when `num_listings` is truthy, the counter is incremented
and the loop breaks once it equals `num_listings`.  `Option.none` models
`num_listings=None`. -/
def collectRecords (has_cluster_col : Bool) (rows : List PageRow)
    (num_listings : Option Int) (counter : Int) : Except PyErr (List PageRow) :=
  match rows with
  | [] => .ok []
  | r :: rest =>
    if has_cluster_col then
      match num_listings with
      | none =>
        match collectRecords has_cluster_col rest num_listings counter with
        | .ok l => .ok (r :: l)
        | .error e => .error e
      | some n =>
        if n ≠ 0 then
          if counter + 1 = n then .ok [r]
          else
            match collectRecords has_cluster_col rest num_listings (counter + 1) with
            | .ok l => .ok (r :: l)
            | .error e => .error e
        else
          match collectRecords has_cluster_col rest num_listings counter with
          | .ok l => .ok (r :: l)
          | .error e => .error e
    else .error .keyError

/-- The bounds-error message of `listings_to_df`, which names the maximum
permitted value `len(self.get_property_urls())`. -/
def exceededMsg (max_listing : Nat) : String :=
  "Given number of listings exceeded the maximum number of listings on the page, please specify equal or less than " ++ toString max_listing ++ "."

/-- Embeds `listings_to_df` (src/real_estate_hungary.py lines 293-310),
modelling the produced table by its list of source rows (each successfully
visited row contributes exactly one record row).  `max_listing` is the
length of `get_property_urls()`, i.e. the raw page listing count *before*
the `_check_unique_ids` dedup; the `ValueError` fires when `num_listings`
is truthy and exceeds it.  `has_cluster_col` says whether the iterated
frame has the `cluster_ids` column (`hasClusterCol` of the
`get_page_listings()` dict: `true` for `'hun'`, `false` for `'eng'`);
without it, the first iterated row raises `KeyError` (line 302). -/
def listings_to_df (has_cluster_col : Bool) (page : List PageRow)
    (num_listings : Option Int) (checking_unique_in_df : List String) :
    Except PyErr (List PageRow) :=
  let max_listing : Int := (page.length : Int)
  let bound_err : Bool :=
    match num_listings with
    | some n => n != 0 && decide (max_listing < n)
    | none => false
  if bound_err then
    .error (.valueError (exceededMsg page.length))
  else
    collectRecords has_cluster_col (check_unique_ids page checking_unique_in_df)
      num_listings 0

/-! ## Python dict model and `extract_attrs` / `_create_record` -/

/-- A value stored in a listing record: a raw string, a parsed number, an
integer, or the null marker (Python `None`, pandas `NaN`) that
`dropna(axis=1)` removes. -/
inductive AttrVal where
  | str : String → AttrVal
  | num : Rat → AttrVal
  | int : Int → AttrVal
  | nullV : AttrVal
  deriving DecidableEq, Repr

/-- A Python `dict` with string keys, modelled as its insertion-ordered
item list. -/
abbrev PyDict (V : Type) := List (String × V)

/-- Models `d[k] = v`: when the key exists its entry is overwritten in
place, otherwise the item is appended. -/
def dictInsert {V : Type} (d : PyDict V) (k : String) (v : V) : PyDict V :=
  if k ∈ d.map Prod.fst then
    d.map (fun p => if p.1 = k then (k, v) else p)
  else d ++ [(k, v)]

/-- Models `d.update(e)` and dict unpacking `{**d, **e}`: the items of `e`
inserted into `d` in order. -/
def dictUpdate {V : Type} (d e : PyDict V) : PyDict V :=
  e.foldl (fun acc p => dictInsert acc p.1 p.2) d

/-- Models `d.get(k)` / `d[k]`: the first entry with the key. -/
def dictLookup {V : Type} : PyDict V → String → Option V
  | [], _ => none
  | p :: rest, k => if p.1 = k then some p.2 else dictLookup rest k

/-- The keys of a modelled dict are pairwise distinct. -/
def NodupKeys {V : Type} (d : PyDict V) : Prop :=
  (d.map Prod.fst).Nodup

/-- The fixed single-valued fields of one listing, as read by
`_extract_single_attrs_to_dict` (src/real_estate_hungary.py lines 536-545);
`property_url` and the photo count are always present, the rest may be the
Python `None` the accessors can return. -/
structure SingleAttrs where
  property_url : String
  city_district : AttrVal
  address : AttrVal
  lot_size : AttrVal
  area_size : AttrVal
  room : AttrVal
  photos : Nat
  desc : AttrVal
  deriving DecidableEq, Repr

/-- Embeds `_extract_single_attrs_to_dict`: the literal eight-entry dict. -/
def extract_single_attrs_to_dict (a : SingleAttrs) : PyDict AttrVal :=
  [("property_url", AttrVal.str a.property_url),
   ("city_district", a.city_district),
   ("address", a.address),
   ("lot_size", a.lot_size),
   ("area_size", a.area_size),
   ("room", a.room),
   ("photos", AttrVal.int (a.photos : Int)),
   ("desc", a.desc)]

/-- The open field sources of one listing, as read by
`_extract_multiple_attrs_to_dict` (src/real_estate_hungary.py lines
547-553): `self.price` (currency → raw price string), `self.gps_coordinates`,
`self.param_details` and `self.public_transports`. -/
structure MultipleAttrs where
  price : PyDict AttrVal
  gps : PyDict AttrVal
  param_details : PyDict AttrVal
  public_transports : PyDict AttrVal
  deriving DecidableEq, Repr

/-- Embeds `_extract_multiple_attrs_to_dict`: the price dict re-keyed with
the `price_in_` prefix, then the dict literal
`{**price_in_diff_currency, **gps, **param_details, **public_transports}`. -/
def extract_multiple_attrs_to_dict (m : MultipleAttrs) : PyDict AttrVal :=
  dictUpdate (dictUpdate (dictUpdate (dictUpdate []
    (m.price.map (fun p => ("price_in_" ++ p.1, p.2))))
    m.gps) m.param_details) m.public_transports

/-- Embeds `extract_attrs` of `RealEstateHungary` (src/real_estate_hungary.py
lines 555-559): `{**single, **multiple}`. -/
def extract_attrs (a : SingleAttrs) (m : MultipleAttrs) : PyDict AttrVal :=
  dictUpdate (dictUpdate [] (extract_single_attrs_to_dict a))
    (extract_multiple_attrs_to_dict m)

/-- Embeds `add_timestamp_to_dict` (src lines 265-269), the timestamp string
already formatted. -/
def add_timestamp_to_dict (d : PyDict AttrVal) (ts : String) : PyDict AttrVal :=
  dictInsert d "timestamp" (AttrVal.str ts)

/-- Models `pd.DataFrame(attrs, index=[0]).dropna(axis=1)`: the one-row
record keeps exactly the columns whose value is not the null marker. -/
def dropna_cols (d : PyDict AttrVal) : PyDict AttrVal :=
  d.filter (fun p => p.2 != AttrVal.nullV)

/-- Embeds `_create_record` (src/real_estate_hungary.py lines 271-283):
the listing's `extract_attrs()` updated with `{**page_attrs, **kwargs}`,
time-stamped, turned into a one-row frame and null columns dropped. -/
def create_record (a : SingleAttrs) (m : MultipleAttrs)
    (page_attrs kwargs : PyDict AttrVal) (ts : String) : PyDict AttrVal :=
  dropna_cols (add_timestamp_to_dict
    (dictUpdate (extract_attrs a m) (dictUpdate (dictUpdate [] page_attrs) kwargs)) ts)

/-! ## GPS extraction (`gps_coordinates`, English locale) -/

/-- Linear scan for the first index at which `sub` is a prefix. -/
def findSubAux (sub : List Char) : List Char → Nat → Option Nat
  | [], i => if List.isPrefixOf sub [] then some i else none
  | l@(_ :: t), i => if List.isPrefixOf sub l then some i else findSubAux sub t (i + 1)

/-- Models Python `str.find`: index of the first occurrence of `sub`,
`-1` when absent. -/
def pyFind (l sub : List Char) : Int :=
  match findSubAux sub l 0 with
  | some n => (n : Int)
  | none => -1

/-- Models Python slicing `s[a:]` for a possibly negative start index. -/
def pySliceFrom (l : List Char) (a : Int) : List Char :=
  if a < 0 then l.drop (l.length - (-a).toNat) else l.drop a.toNat

/-- Models Python slicing `s[:j]` for a possibly negative end index. -/
def pySliceTo (l : List Char) (j : Int) : List Char :=
  if j < 0 then l.take (l.length - (-j).toNat) else l.take j.toNat

/-- Models Python `str.split(sep)` for a one-character separator. -/
def splitChar (sep : Char) : List Char → List (List Char)
  | [] => [[]]
  | c :: rest =>
    let r := splitChar sep rest
    if c = sep then [] :: r
    else
      match r with
      | [] => [[c]]
      | h :: t => (c :: h) :: t

/-- Parses the mantissa of a Python float literal: an integer part and an
optional fractional part around one decimal point, at least one digit in
total. -/
def parseMantissa (l : List Char) : Option Rat :=
  match splitChar '.' l with
  | [ip] =>
    if !ip.isEmpty && ip.all isDigitChar then some ((digitsToNat ip : Int) : Rat)
    else none
  | [ip, fp] =>
    if (ip.all isDigitChar && fp.all isDigitChar) && (!ip.isEmpty || !fp.isEmpty) then
      some ((digitsToNat ip : Rat) + (digitsToNat fp : Rat) / ((10 : Rat) ^ fp.length))
    else none
  | _ => none

/-- Parses an optionally signed nonempty digit run (a float exponent). -/
def parseSignedInt (l : List Char) : Option Int :=
  match l with
  | '+' :: ds => (parseDigitRun ds).map (fun n => (n : Int))
  | '-' :: ds => (parseDigitRun ds).map (fun n => -(n : Int))
  | ds => (parseDigitRun ds).map (fun n => (n : Int))

/-- Unsigned Python float literal: mantissa with an optional `e`/`E`
exponent part. -/
def pyFloatUnsigned (l : List Char) : Option Rat :=
  match l.span (fun c => (c != 'e') && (c != 'E')) with
  | (mant, []) => parseMantissa mant
  | (mant, _ :: expPart) =>
    match parseMantissa mant, parseSignedInt expPart with
    | some mv, some ev => some (mv * (10 : Rat) ^ ev)
    | _, _ => none

/-- Models Python `float(s)` on the (already stripped) character list of a
coordinate string: optional sign, then an unsigned float literal; `none`
models the `ValueError` of a failed conversion.  (`inf`/`nan` and
underscore digit separators, irrelevant to coordinate snippets, are not
modelled.) -/
def pyFloat (l : List Char) : Option Rat :=
  match l with
  | '+' :: rest => pyFloatUnsigned rest
  | '-' :: rest => (pyFloatUnsigned rest).map (fun r => -r)
  | _ => pyFloatUnsigned l

/-- The character class of the `re.sub` pattern `[[({})]`: an opening
square bracket, both parentheses and both braces; the final closing square
bracket of the pattern terminates the class and is not a member. -/
def bracketChars : List Char := ['[', '(', '\x7b', '\x7d', ')']

/-- The dict comprehension of the English `gps_coordinates` branch: for
each comma-piece `v`, key `v.split(':')[0]` and value
`float(v.split(':')[1].strip())`.  A piece with no colon makes the `[1]`
index raise `IndexError`; a failed float conversion raises `ValueError`;
pieces are consumed left to right and inserted into the dict in order. -/
def buildGpsDict : List (List Char) → PyDict (Option Rat) →
    Except PyErr (PyDict (Option Rat))
  | [], acc => .ok acc
  | v :: rest, acc =>
    match splitChar ':' v with
    | [] => .error .indexError
    | k :: tailParts =>
      match tailParts with
      | [] => .error .indexError
      | second :: _ =>
        match pyFloat (pyStripList second) with
        | none =>
          .error (.valueError
            ("could not convert string to float: " ++ String.mk (pyStripList second)))
        | some r => buildGpsDict rest (dictInsert acc (String.mk k) (some r))

/-- Models the `try ... except IndexError:` around the comprehension:
an `IndexError` outcome is replaced by the fallback dict, every other
outcome passes through. -/
def catchIndexError {α : Type} (x : Except PyErr α) (fallback : α) : Except PyErr α :=
  match x with
  | .error .indexError => .ok fallback
  | other => other

/-- Embeds the English branch of `gps_coordinates`
(src/real_estate_hungary.py lines 369-384): slice the raw page text after
the first `map.addMarker`, clip at the first `,title` (Python slicing with
`find`'s `-1` on absence), strip the regex's bracket characters, then run
the comprehension with the `IndexError` fallback
`{'lat': None, 'lng': None}`. -/
def gps_coordinates_eng (raw_html : String) : Except PyErr (PyDict (Option Rat)) :=
  let rawL := raw_html.toList
  let kw := "map.addMarker".toList
  let intermed := pySliceFrom rawL (pyFind rawL kw + (kw.length : Int))
  let clipped := pySliceTo intermed (pyFind intermed ",title".toList)
  let result := clipped.filter (fun c => !(bracketChars.contains c))
  catchIndexError (buildGpsDict (splitChar ',' result) [])
    [("lat", none), ("lng", none)]

/-! ## Theorems -/

theorem char_toNat_le_of_le {a b : Char} (h : a ≤ b) : a.toNat ≤ b.toNat := by
  simp [Char.le_def] at h; exact h

theorem translateChar_fix {c : Char} (h122 : c.toNat ≤ 122) : translateChar c = c := by
  unfold translateChar
  split_ifs with u1 u2 u3 u4 u5 u6 u7 u8 u9
  · subst u1; exact absurd h122 (by decide)
  · subst u2; exact absurd h122 (by decide)
  · subst u3; exact absurd h122 (by decide)
  · subst u4; exact absurd h122 (by decide)
  · subst u5; exact absurd h122 (by decide)
  · subst u6; exact absurd h122 (by decide)
  · subst u7; exact absurd h122 (by decide)
  · subst u8; exact absurd h122 (by decide)
  · subst u9; exact absurd h122 (by decide)
  · rfl

theorem pyLowerChar_fix {c : Char} (h97 : 97 ≤ c.toNat) (h122 : c.toNat ≤ 122) :
    pyLowerChar c = c := by
  have n1 : c ≠ 'Ä' := fun e => by subst e; exact absurd h122 (by decide)
  have n2 : c ≠ 'Á' := fun e => by subst e; exact absurd h122 (by decide)
  have n3 : c ≠ 'É' := fun e => by subst e; exact absurd h122 (by decide)
  have n4 : c ≠ 'Í' := fun e => by subst e; exact absurd h122 (by decide)
  have n5 : c ≠ 'Ó' := fun e => by subst e; exact absurd h122 (by decide)
  have n6 : c ≠ 'Ő' := fun e => by subst e; exact absurd h122 (by decide)
  have n7 : c ≠ 'Ú' := fun e => by subst e; exact absurd h122 (by decide)
  have n8 : c ≠ 'Ü' := fun e => by subst e; exact absurd h122 (by decide)
  have n9 : c ≠ 'Ű' := fun e => by subst e; exact absurd h122 (by decide)
  have nAZ : ¬('A' ≤ c ∧ c ≤ 'Z') := by
    intro e
    have h90 : c.toNat ≤ 90 := char_toNat_le_of_le e.2
    exact absurd h97 (by omega)
  unfold pyLowerChar
  rw [if_neg n1, if_neg n2, if_neg n3, if_neg n4, if_neg n5, if_neg n6,
      if_neg n7, if_neg n8, if_neg n9, if_neg nAZ]

theorem normChar_idem (c : Char) :
    translateChar (pyLowerChar (translateChar (pyLowerChar c)))
      = translateChar (pyLowerChar c) := by
  by_cases u1 : c = 'Ä'; · subst u1; decide
  by_cases u2 : c = 'Á'; · subst u2; decide
  by_cases u3 : c = 'É'; · subst u3; decide
  by_cases u4 : c = 'Í'; · subst u4; decide
  by_cases u5 : c = 'Ó'; · subst u5; decide
  by_cases u6 : c = 'Ő'; · subst u6; decide
  by_cases u7 : c = 'Ú'; · subst u7; decide
  by_cases u8 : c = 'Ü'; · subst u8; decide
  by_cases u9 : c = 'Ű'; · subst u9; decide
  by_cases l1 : c = 'ä'; · subst l1; decide
  by_cases l2 : c = 'á'; · subst l2; decide
  by_cases l3 : c = 'é'; · subst l3; decide
  by_cases l4 : c = 'í'; · subst l4; decide
  by_cases l5 : c = 'ó'; · subst l5; decide
  by_cases l6 : c = 'ő'; · subst l6; decide
  by_cases l7 : c = 'ú'; · subst l7; decide
  by_cases l8 : c = 'ü'; · subst l8; decide
  by_cases l9 : c = 'ű'; · subst l9; decide
  by_cases uAZ : 'A' ≤ c ∧ c ≤ 'Z'
  · -- ASCII capital: lowering lands in 97..122, which both maps fix.
    have hlow : pyLowerChar c = Char.ofNat (c.toNat + 32) := by
      unfold pyLowerChar
      rw [if_neg u1, if_neg u2, if_neg u3, if_neg u4, if_neg u5, if_neg u6,
          if_neg u7, if_neg u8, if_neg u9, if_pos uAZ]
    have h65 : 65 ≤ c.toNat := char_toNat_le_of_le uAZ.1
    have h90 : c.toNat ≤ 90 := char_toNat_le_of_le uAZ.2
    have hv : (c.toNat + 32).isValidChar := by left; omega
    have hd : (Char.ofNat (c.toNat + 32)).toNat = c.toNat + 32 := by
      simp [Char.ofNat, hv]; rfl
    have e1 : translateChar (Char.ofNat (c.toNat + 32)) = Char.ofNat (c.toNat + 32) :=
      translateChar_fix (by omega)
    have e2 : pyLowerChar (Char.ofNat (c.toNat + 32)) = Char.ofNat (c.toNat + 32) :=
      pyLowerChar_fix (by omega) (by omega)
    rw [hlow, e1, e2, e1]
  · -- any other character is fixed by both maps.
    have hlow : pyLowerChar c = c := by
      unfold pyLowerChar
      rw [if_neg u1, if_neg u2, if_neg u3, if_neg u4, if_neg u5, if_neg u6,
          if_neg u7, if_neg u8, if_neg u9, if_neg uAZ]
    have htr : translateChar c = c := by
      unfold translateChar
      rw [if_neg l1, if_neg l2, if_neg l3, if_neg l4, if_neg l5, if_neg l6,
          if_neg l7, if_neg l8, if_neg l9]
    rw [hlow, htr, hlow, htr]

theorem city_setter_eq (s : String) :
    city_setter s = String.mk (s.toList.map (fun c => translateChar (pyLowerChar c))) := by
  unfold city_setter remove_spec_chars pyLower
  rw [show (String.mk (s.toList.map pyLowerChar)).toList = s.toList.map pyLowerChar from rfl,
      List.map_map]
  rfl

/-- C6: city normalization (lower-casing then `remove_spec_chars`'s fixed
accent substitution) is idempotent — normalizing an already-normalized
string returns it unchanged — and normalizing "Győr" yields "gyor". -/
theorem city_normalization_idem (s : String) :
    city_setter (city_setter s) = city_setter s ∧ city_setter "Győr" = "gyor" := by
  refine ⟨?_, by decide⟩
  rw [city_setter_eq s, city_setter_eq (String.mk (s.toList.map (fun c => translateChar (pyLowerChar c)))),
      show (String.mk (s.toList.map (fun c => translateChar (pyLowerChar c)))).toList
        = s.toList.map (fun c => translateChar (pyLowerChar c)) from rfl,
      List.map_map]
  congr 1
  have : ∀ l : List Char,
      l.map ((fun c => translateChar (pyLowerChar c)) ∘ (fun c => translateChar (pyLowerChar c)))
        = l.map (fun c => translateChar (pyLowerChar c)) := by
    intro l
    induction l with
    | nil => rfl
    | cons a t ih =>
      simp only [List.map_cons, ih, Function.comp]
      rw [normChar_idem a]
  exact this s.toList

/-- C7 counterexample: the float `7/2 = 3.5` does not represent an integer
(its reduced denominator is `2`, not `1`), yet the `page_num` setter does
not fail: `int(3.5)` truncates to `3` and construction proceeds with
`page_num = 3`.  This refutes the claim that every non-integer page-number
argument fails with a type error at validation time. -/
theorem page_num_float_cex :
    (mkRat 7 2).den ≠ 1 ∧ page_num_setter (PyVal.floatV (mkRat 7 2)) = Except.ok 3 :=
  ⟨by decide, rfl⟩

/-- C7 amended: the `page_num` setter coerces with Python `int(...)`:
an `int` argument passes through unchanged; a `float` argument is truncated
toward zero and accepted even when it is not integral; a `str` argument
that does not parse as an integer literal fails with
`ValueError("Page number must be integer.")`, while a parseable one yields
the parsed integer; `None` fails with an uncaught `TypeError` (not with the
setter's own message). -/
theorem page_num_setter_spec (n : Int) (q : Rat) (s : String) :
    page_num_setter (PyVal.intV n) = Except.ok n
    ∧ page_num_setter (PyVal.floatV q) = Except.ok (ratTrunc q)
    ∧ (pyIntOfString s = none →
        page_num_setter (PyVal.strV s) =
          Except.error (PyErr.valueError "Page number must be integer."))
    ∧ (∀ m : Int, pyIntOfString s = some m →
        page_num_setter (PyVal.strV s) = Except.ok m)
    ∧ page_num_setter PyVal.noneV = Except.error PyErr.typeError := by
  refine ⟨rfl, rfl, ?_, ?_, rfl⟩
  · intro h
    simp [page_num_setter, pyInt, h]
  · intro m h
    simp [page_num_setter, pyInt, h]

/-- C7 witness: instantiating the amended setter specification at the
concrete inputs `n = 5`, `q = 7/2`, `s = "abc"`, and discharging the
parse-failure hypothesis by computation. -/
theorem page_num_setter_spec_witness :
    page_num_setter (PyVal.strV "abc") =
      Except.error (PyErr.valueError "Page number must be integer.")
    ∧ page_num_setter (PyVal.intV 5) = Except.ok 5 :=
  ⟨(page_num_setter_spec 5 (mkRat 7 2) "abc").2.2.1 (by decide),
   (page_num_setter_spec 5 (mkRat 7 2) "abc").1⟩

/-- C2 (code-bug evaluation): a detail-page fetch failing with HTTP 404
is re-raised as an `HTTPError` that keeps status 404 and carries the
sold/rent/edited explanation; but a fetch failing with any other HTTP
status (here 500) is NOT propagated: the `except HTTPError` clause
swallows it and construction completes with `parsed_html` unset
(`Except.ok Option.none`), contradicting the claim that non-404 HTTP
failures propagate unchanged. -/
theorem reh_init_http_behavior :
    reh_init_fetch "u" (Except.error 500) = Except.ok Option.none
    ∧ reh_init_fetch "u" (Except.error 404)
        = Except.error (PyErr.httpError 404
            "Property does not exist, probably already sold/rent or being edited")
    ∧ reh_init_fetch "u" (Except.ok "<html>") = Except.ok (Option.some "<html>") :=
  ⟨rfl, rfl, rfl⟩

/-- C3 counterexample: in the English locale `is_active` returns Python
`None` (the value of `_inactive_text_exist()`), not `True`, whatever the
page contains. -/
theorem is_active_eng_cex :
    is_active Lang.eng Option.none = Option.none
    ∧ Option.none ≠ Option.some true := ⟨rfl, by decide⟩

/-- C3 amended: in the English locale `is_active` returns `None` (the
locale has no inactive-marker concept, and `_inactive_text_exist` returns
`None`, which `is_active` passes through); in the Hungarian locale it is
`False` exactly when the inactive-marker element is present with non-empty
text, and `True` (active) when the marker is absent (the `AttributeError`
is caught) or present with empty text. -/
theorem is_active_spec (d : Option String) (t : String) :
    is_active Lang.eng d = Option.none
    ∧ is_active Lang.hun Option.none = Option.some true
    ∧ is_active Lang.hun (Option.some t) = Option.some (decide (t = "")) := by
  refine ⟨rfl, rfl, ?_⟩
  by_cases h : t = ""
  · subst h; rfl
  · simp [is_active, inactive_text_exist, h]

/-- C10: `get_cluster_ids()` always has exactly the length of
`get_property_ids()`; on an English page (whose markup carries no cluster
identifiers, so the dict lacks the `cluster_ids` key) it is a list of
`None`s of that length — in particular every element is `None`. -/
theorem get_cluster_ids_spec (baseUrl : String) (h : ListingsHtml) (p : EngListingsHtml) :
    (get_cluster_ids baseUrl h).length = (get_property_ids baseUrl h).length
    ∧ get_cluster_ids baseUrl (ListingsHtml.eng p)
        = List.replicate (get_property_ids baseUrl (ListingsHtml.eng p)).length Option.none := by
  constructor
  · cases h with
    | eng q => simp [get_cluster_ids, get_property_ids, get_page_listings]
    | hun cards => simp [get_cluster_ids, get_property_ids, get_page_listings]
  · rfl

/-- C5: `_check_unique_ids` with an empty existing-record table returns every
page row unchanged; with a table whose URL column contains all current page
URLs it returns zero rows; and in general it returns exactly the page rows
whose URL is not present in the table's URL column, in page order. -/
theorem check_unique_ids_spec (page : List PageRow) (in_df : List String) :
    check_unique_ids page [] = page
    ∧ ((∀ r ∈ page, in_df.contains r.property_urls) → check_unique_ids page in_df = [])
    ∧ check_unique_ids page in_df = page.filter (fun r => !(in_df.contains r.property_urls)) := by
  have hgen : check_unique_ids page in_df
      = page.filter (fun r => !(in_df.contains r.property_urls)) := by
    unfold check_unique_ids
    by_cases he : in_df.isEmpty
    · rw [if_neg (by simp [he])]
      have : in_df = [] := by
        cases in_df with
        | nil => rfl
        | cons a t => simp [List.isEmpty] at he
      subst this
      simp
    · rw [if_pos (by simp [he])]
  refine ⟨?_, ?_, hgen⟩
  · unfold check_unique_ids; simp
  · intro hall
    rw [hgen]
    rw [List.filter_eq_nil_iff]
    intro r hr
    simpa using hall r hr

/-- C5 witness: a one-row page whose URL is already in the supplied table
yields zero rows, by the second conjunct of `check_unique_ids_spec` at a
concrete page and table. -/
theorem check_unique_ids_spec_witness :
    check_unique_ids [⟨some "1", none, "u1"⟩] ["u1"] = [] :=
  (check_unique_ids_spec [⟨some "1", none, "u1"⟩] ["u1"]).2.1 (by decide)

theorem collectRecords_none_limit (rows : List PageRow) (c : Int) :
    collectRecords true rows none c = Except.ok rows := by
  induction rows generalizing c with
  | nil => rfl
  | cons r rest ih => simp [collectRecords, ih]

theorem collectRecords_zero_limit (rows : List PageRow) (c : Int) :
    collectRecords true rows (some 0) c = Except.ok rows := by
  induction rows generalizing c with
  | nil => rfl
  | cons r rest ih => simp [collectRecords, ih]

theorem collectRecords_no_col (rows : List PageRow) (num_listings : Option Int) (c : Int) :
    collectRecords false rows num_listings c
      = match rows with
        | [] => Except.ok []
        | _ :: _ => Except.error PyErr.keyError := by
  cases rows with
  | nil => rfl
  | cons r rest => rfl

theorem collectRecords_zero_eq_none (has_cluster_col : Bool) (rows : List PageRow) (c : Int) :
    collectRecords has_cluster_col rows (some 0) c
      = collectRecords has_cluster_col rows none c := by
  cases has_cluster_col with
  | true => rw [collectRecords_zero_limit, collectRecords_none_limit]
  | false => rw [collectRecords_no_col, collectRecords_no_col]

/-- C9 counterexample: on an English page the listings dict — and hence the
frame `_check_unique_ids` builds — has no `cluster_ids` column, so
`listings_to_df` with `num_listings = 0` raises `KeyError` when unpacking
the first de-duplicated row (here U = 1) instead of returning one row per
de-duplicated listing. -/
theorem listings_to_df_zero_eng_cex :
    hasClusterCol (get_page_listings "https://realestate.hu/"
        (ListingsHtml.eng ⟨["/a"], [some "1"]⟩)) = false
    ∧ (check_unique_ids [⟨some "1", none, "https://realestate.hu/a"⟩] []).length = 1
    ∧ listings_to_df false [⟨some "1", none, "https://realestate.hu/a"⟩] (some 0) []
        = Except.error PyErr.keyError :=
  ⟨rfl, rfl, rfl⟩

/-- C9 amended: `num_listings = 0` is falsy in both `if num_listings and ...`
and `if num_listings:`, so it applies neither the bounds check nor any cap
and behaves exactly like passing no limit, for either frame shape.  On a
Hungarian frame (which has the `cluster_ids` column) the call returns one
row per de-duplicated listing; on an English frame (no such column) it
returns the empty table when no de-duplicated listing remains, and raises
`KeyError` at the first iterated row otherwise. -/
theorem listings_to_df_zero_limit (has_cluster_col : Bool) (page : List PageRow)
    (in_df : List String) :
    listings_to_df has_cluster_col page (some 0) in_df
        = listings_to_df has_cluster_col page none in_df
    ∧ listings_to_df true page (some 0) in_df = Except.ok (check_unique_ids page in_df)
    ∧ (check_unique_ids page in_df = [] →
        listings_to_df false page (some 0) in_df = Except.ok [])
    ∧ (∀ r rest, check_unique_ids page in_df = r :: rest →
        listings_to_df false page (some 0) in_df = Except.error PyErr.keyError) := by
  refine ⟨?_, ?_, ?_, ?_⟩
  · simp [listings_to_df, collectRecords_zero_eq_none]
  · simp [listings_to_df, collectRecords_zero_limit]
  · intro h
    simp [listings_to_df, h, collectRecords_no_col]
  · intro r rest h
    simp [listings_to_df, h, collectRecords_no_col]

/-- C9 witness: instantiating the amended statement's English empty-dedup
conjunct at a one-listing page whose URL is already in the dedup table. -/
theorem listings_to_df_zero_limit_witness :
    listings_to_df false [⟨some "1", none, "u1"⟩] (some 0) ["u1"] = Except.ok [] :=
  (listings_to_df_zero_limit false [⟨some "1", none, "u1"⟩] ["u1"]).2.2.1 (by decide)

/-- C1 counterexample: a Hungarian-shaped page (frame with the
`cluster_ids` column) with two listings ("u1", "u2") and an existing table
containing "u1" has de-duplicated (unique) count U = 1; the claim says
limit N = 2 > U must fail with a bounds error, but the code's bounds check
compares N with the raw page count 2, so no error is raised and the call
returns a single row — neither N rows nor an error. -/
theorem listings_to_df_bounds_cex :
    (check_unique_ids [⟨some "1", none, "u1"⟩, ⟨some "2", none, "u2"⟩] ["u1"]).length = 1
    ∧ listings_to_df true [⟨some "1", none, "u1"⟩, ⟨some "2", none, "u2"⟩] (some 2) ["u1"]
        = Except.ok [⟨some "2", none, "u2"⟩] :=
  ⟨rfl, rfl⟩

theorem collectRecords_length (rows : List PageRow) (n : Int) (c : Int)
    (hc : 0 ≤ c) (hlt : c < n) :
    ∃ l, collectRecords true rows (some n) c = Except.ok l
      ∧ l.length = min (n - c).toNat rows.length := by
  induction rows generalizing c with
  | nil => exact ⟨[], rfl, by simp⟩
  | cons r rest ih =>
    by_cases he : c + 1 = n
    · refine ⟨[r], ?_, ?_⟩
      · simp only [collectRecords, if_true]
        rw [if_pos (show n ≠ 0 by omega), if_pos he]
      · simp only [List.length_cons, List.length_nil]
        omega
    · obtain ⟨l, hl, hlen⟩ := ih (c + 1) (by omega) (by omega)
      refine ⟨r :: l, ?_, ?_⟩
      · simp only [collectRecords, if_true]
        rw [if_pos (show n ≠ 0 by omega), if_neg he, hl]
      · simp only [List.length_cons]
        omega

/-- C1 amended: for a positive limit N, `listings_to_df` raises the bounds
`ValueError` (naming the maximum) exactly when N exceeds M, the page's raw
listing count *before* deduplication, for either frame shape; when N ≤ M,
on a Hungarian frame (`cluster_ids` column present) it succeeds and returns
`min N U` rows, where U is the de-duplicated listing count — in particular
exactly N rows whenever N ≤ U — while on an English frame (no `cluster_ids`
column) it raises `KeyError` at the first iterated row whenever U ≥ 1. -/
theorem listings_to_df_min_rows (page : List PageRow) (n : Int) (in_df : List String)
    (h1 : 1 ≤ n) :
    (∀ has_cluster_col, (page.length : Int) < n →
      listings_to_df has_cluster_col page (some n) in_df
        = Except.error (PyErr.valueError (exceededMsg page.length)))
    ∧ (n ≤ (page.length : Int) →
      ∃ rows, listings_to_df true page (some n) in_df = Except.ok rows
        ∧ rows.length = min n.toNat (check_unique_ids page in_df).length)
    ∧ (n ≤ (page.length : Int) →
      ∀ r rest, check_unique_ids page in_df = r :: rest →
        listings_to_df false page (some n) in_df = Except.error PyErr.keyError) := by
  refine ⟨?_, ?_, ?_⟩
  · intro has_cluster_col hgt
    simp only [listings_to_df]
    rw [if_pos]
    simp only [bne_iff_ne, Bool.and_eq_true, decide_eq_true_eq]
    exact ⟨by omega, hgt⟩
  · intro hle
    simp only [listings_to_df]
    rw [if_neg]
    · obtain ⟨l, hl, hlen⟩ :=
        collectRecords_length (check_unique_ids page in_df) n 0 (by omega) (by omega)
      refine ⟨l, hl, ?_⟩
      rw [hlen]
      simp
    · simp only [bne_iff_ne, Bool.and_eq_true, decide_eq_true_eq, not_and]
      intro _
      omega
  · intro hle r rest hsplit
    simp only [listings_to_df]
    rw [if_neg]
    · rw [hsplit, collectRecords_no_col]
    · simp only [bne_iff_ne, Bool.and_eq_true, decide_eq_true_eq, not_and]
      intro _
      omega

/-- C1 witness: instantiating the amended bound/row-count statement at a
one-listing Hungarian-shaped page, limit 1 and empty dedup table. -/
theorem listings_to_df_min_rows_witness :
    ∃ rows, listings_to_df true [⟨some "1", none, "u1"⟩] (some 1) [] = Except.ok rows
      ∧ rows.length = min (Int.toNat 1) (check_unique_ids [⟨some "1", none, "u1"⟩] []).length :=
  (listings_to_df_min_rows [⟨some "1", none, "u1"⟩] 1 [] (by decide)).2.1 (by decide)

theorem dictLookup_eq_none {V : Type} (d : PyDict V) (k : String)
    (h : k ∉ d.map Prod.fst) : dictLookup d k = none := by
  induction d with
  | nil => rfl
  | cons p rest ih =>
    simp only [List.map_cons, List.mem_cons, not_or] at h
    simp only [dictLookup]
    rw [if_neg (fun e => h.1 e.symm), ih h.2]

theorem dictLookup_append {V : Type} (d e : PyDict V) (k : String) :
    dictLookup (d ++ e) k
      = match dictLookup d k with
        | some v => some v
        | none => dictLookup e k := by
  induction d with
  | nil => simp [dictLookup]
  | cons p rest ih =>
    by_cases hp : p.1 = k
    · simp [dictLookup, hp]
    · simp [dictLookup, hp, ih]

theorem dictLookup_map_overwrite_ne {V : Type} (d : PyDict V) (k k' : String) (v : V)
    (h : k' ≠ k) :
    dictLookup (d.map (fun p => if p.1 = k then (k, v) else p)) k' = dictLookup d k' := by
  induction d with
  | nil => rfl
  | cons p rest ih =>
    by_cases hp : p.1 = k
    · simp [dictLookup, hp, Ne.symm h, ih]
    · simp [dictLookup, hp, ih]

theorem dictLookup_map_overwrite_self {V : Type} (d : PyDict V) (k : String) (v : V)
    (h : k ∈ d.map Prod.fst) :
    dictLookup (d.map (fun p => if p.1 = k then (k, v) else p)) k = some v := by
  induction d with
  | nil => simp at h
  | cons p rest ih =>
    by_cases hp : p.1 = k
    · simp [dictLookup, hp]
    · have h' : k ∈ rest.map Prod.fst := by
        simp only [List.map_cons, List.mem_cons] at h
        rcases h with h | h
        · exact absurd h.symm hp
        · exact h
      simp [dictLookup, hp, ih h']

theorem dictLookup_dictInsert {V : Type} (d : PyDict V) (k k' : String) (v : V) :
    dictLookup (dictInsert d k v) k'
      = if k' = k then some v else dictLookup d k' := by
  unfold dictInsert
  by_cases hm : k ∈ d.map Prod.fst
  · rw [if_pos hm]
    by_cases hk : k' = k
    · subst hk
      rw [if_pos rfl, dictLookup_map_overwrite_self d k' v hm]
    · rw [if_neg hk, dictLookup_map_overwrite_ne d k k' v hk]
  · rw [if_neg hm, dictLookup_append]
    by_cases hk : k' = k
    · subst hk
      rw [dictLookup_eq_none d k' hm]
      simp [dictLookup]
    · cases hd : dictLookup d k' with
      | some w => simp [hd, hk]
      | none => simp [hd, dictLookup, hk, Ne.symm hk]

theorem keys_map_overwrite {V : Type} (d : PyDict V) (k : String) (v : V) :
    (d.map (fun p => if p.1 = k then (k, v) else p)).map Prod.fst = d.map Prod.fst := by
  induction d with
  | nil => rfl
  | cons p rest ih =>
    by_cases hp : p.1 = k
    · simp [hp, ih]
    · simp [hp, ih]

theorem nodupKeys_dictInsert {V : Type} (d : PyDict V) (k : String) (v : V)
    (h : NodupKeys d) : NodupKeys (dictInsert d k v) := by
  unfold dictInsert
  by_cases hm : k ∈ d.map Prod.fst
  · rw [if_pos hm]
    unfold NodupKeys
    rw [keys_map_overwrite]
    exact h
  · rw [if_neg hm]
    unfold NodupKeys
    simp only [List.map_append, List.map_cons, List.map_nil]
    rw [List.nodup_append]
    refine ⟨h, List.nodup_singleton k, ?_⟩
    intro x hx hxk
    rw [List.mem_singleton] at hxk
    subst hxk
    exact hm hx

theorem nodupKeys_dictUpdate {V : Type} (e d : PyDict V) (h : NodupKeys d) :
    NodupKeys (dictUpdate d e) := by
  induction e generalizing d with
  | nil => exact h
  | cons p rest ih => exact ih (dictInsert d p.1 p.2) (nodupKeys_dictInsert d p.1 p.2 h)

theorem dictLookup_dictUpdate {V : Type} (e d : PyDict V) (k : String)
    (he : NodupKeys e) :
    dictLookup (dictUpdate d e) k
      = match dictLookup e k with
        | some v => some v
        | none => dictLookup d k := by
  induction e generalizing d with
  | nil => rfl
  | cons p rest ih =>
    have hnot : p.1 ∉ rest.map Prod.fst := by
      unfold NodupKeys at he
      simp only [List.map_cons, List.nodup_cons] at he
      exact he.1
    have hrest : NodupKeys rest := by
      unfold NodupKeys at he
      simp only [List.map_cons, List.nodup_cons] at he
      exact he.2
    have step : dictLookup (dictUpdate d (p :: rest)) k
        = dictLookup (dictUpdate (dictInsert d p.1 p.2) rest) k := rfl
    rw [step, ih (dictInsert d p.1 p.2) hrest]
    by_cases hk : k = p.1
    · subst hk
      rw [dictLookup_eq_none rest p.1 hnot]
      simp [dictLookup_dictInsert, dictLookup]
    · rw [dictLookup_dictInsert]
      rw [if_neg hk]
      cases hd : dictLookup rest k with
      | some w => simp [hd, dictLookup, Ne.symm hk]
      | none => simp [hd, dictLookup, Ne.symm hk]

/-- C8: `extract_attrs()` is one flat mapping merging the fixed
single-valued field set with the open field set, the open set taking
precedence on key collisions (`{**single, **multiple}`); and in the final
record produced by `_create_record`, every null-valued field is dropped by
`dropna(axis=1)` while every non-null field present after the merge with
page attributes, extra ids and timestamp is kept. -/
theorem extract_attrs_record_spec (a : SingleAttrs) (m : MultipleAttrs)
    (page_attrs kwargs : PyDict AttrVal) (ts : String) :
    (∀ k, dictLookup (extract_attrs a m) k
        = match dictLookup (extract_multiple_attrs_to_dict m) k with
          | some v => some v
          | none => dictLookup (extract_single_attrs_to_dict a) k)
    ∧ (∀ k v, (k, v) ∈ create_record a m page_attrs kwargs ts → v ≠ AttrVal.nullV)
    ∧ (∀ k v,
        (k, v) ∈ add_timestamp_to_dict
          (dictUpdate (extract_attrs a m) (dictUpdate (dictUpdate [] page_attrs) kwargs)) ts
        → v ≠ AttrVal.nullV
        → (k, v) ∈ create_record a m page_attrs kwargs ts) := by
  refine ⟨?_, ?_, ?_⟩
  · intro k
    have hm : NodupKeys (extract_multiple_attrs_to_dict m) := by
      unfold extract_multiple_attrs_to_dict
      exact nodupKeys_dictUpdate _ _ (nodupKeys_dictUpdate _ _
        (nodupKeys_dictUpdate _ _ (nodupKeys_dictUpdate _ _ List.nodup_nil)))
    have hs : NodupKeys (extract_single_attrs_to_dict a) := by
      unfold NodupKeys extract_single_attrs_to_dict
      simp only [List.map_cons, List.map_nil]
      decide
    unfold extract_attrs
    rw [dictLookup_dictUpdate _ _ k hm, dictLookup_dictUpdate _ _ k hs]
    cases dictLookup (extract_multiple_attrs_to_dict m) k with
    | some v => rfl
    | none =>
      cases hd : dictLookup (extract_single_attrs_to_dict a) k with
      | some w => simp [hd]
      | none => simp [hd, dictLookup]
  · intro k v hmem
    simp only [create_record, dropna_cols] at hmem
    have h2 := (List.mem_filter.mp hmem).2
    simpa using h2
  · intro k v hmem hv
    simp only [create_record, dropna_cols]
    exact List.mem_filter.mpr ⟨hmem, by simpa using hv⟩

/-- C8 witness: at concrete inputs (all optional fields null, empty open
dicts, empty page attributes), the record membership of the
`property_url` column instantiates the null-free conjunct. -/
theorem extract_attrs_record_spec_witness :
    AttrVal.str "u" ≠ AttrVal.nullV :=
  (extract_attrs_record_spec
      ⟨"u", AttrVal.nullV, AttrVal.nullV, AttrVal.nullV, AttrVal.nullV, AttrVal.nullV, 0, AttrVal.nullV⟩
      ⟨[], [], [], []⟩ [] [] "t").2.1
    "property_url" (AttrVal.str "u") (by decide)

theorem buildGpsDict_err (pieces : List (List Char)) :
    ∀ (acc : PyDict (Option Rat)) (e : PyErr),
    buildGpsDict pieces acc = Except.error e →
    e = PyErr.indexError ∨ e.isValueErr = true := by
  induction pieces with
  | nil => intro acc e h; simp [buildGpsDict] at h
  | cons v rest ih =>
    intro acc e h
    unfold buildGpsDict at h
    split at h
    · simp at h
      exact Or.inl h.symm
    · split at h
      · simp at h
        exact Or.inl h.symm
      · split at h
        · simp at h
          exact Or.inr (by rw [← h]; rfl)
        · exact ih _ e h

theorem catchIndexError_err {α : Type} (x : Except PyErr α) (f : α) (e : PyErr)
    (h : catchIndexError x f = Except.error e) :
    x = Except.error e ∧ e ≠ PyErr.indexError := by
  cases x with
  | ok a => simp [catchIndexError] at h
  | error err =>
    cases err with
    | indexError => simp [catchIndexError] at h
    | valueError msg =>
      simp [catchIndexError] at h
      subst h
      exact ⟨rfl, by simp⟩
    | typeError =>
      simp [catchIndexError] at h
      subst h
      exact ⟨rfl, by simp⟩
    | keyError =>
      simp [catchIndexError] at h
      subst h
      exact ⟨rfl, by simp⟩
    | attributeError =>
      simp [catchIndexError] at h
      subst h
      exact ⟨rfl, by simp⟩
    | httpError c msg =>
      simp [catchIndexError] at h
      subst h
      exact ⟨rfl, by simp⟩

theorem splitChar_ne_nil (sep : Char) (l : List Char) : splitChar sep l ≠ [] := by
  cases l with
  | nil => simp [splitChar]
  | cons c rest =>
    unfold splitChar
    by_cases hc : c = sep
    · simp [hc]
    · simp only [if_neg hc]
      cases splitChar sep rest <;> simp

theorem splitChar_chars (sep : Char) (l : List Char) :
    ∀ p ∈ splitChar sep l, ∀ c ∈ p, c ∈ l := by
  induction l with
  | nil =>
    intro p hp c hc
    simp [splitChar] at hp
    subst hp
    simp at hc
  | cons a rest ih =>
    intro p hp c hc
    unfold splitChar at hp
    by_cases ha : a = sep
    · rw [if_pos ha] at hp
      rcases List.mem_cons.mp hp with h | h
      · subst h; simp at hc
      · exact List.mem_cons_of_mem a (ih p h c hc)
    · rw [if_neg ha] at hp
      cases hsp : splitChar sep rest with
      | nil => exact absurd hsp (splitChar_ne_nil sep rest)
      | cons h0 t0 =>
        rw [hsp] at hp
        rcases List.mem_cons.mp hp with h | h
        · subst h
          rcases List.mem_cons.mp hc with h | h
          · exact List.mem_cons.mpr (Or.inl h)
          · exact List.mem_cons_of_mem a (ih h0 (by rw [hsp]; exact List.mem_cons_self h0 t0) c h)
        · exact List.mem_cons_of_mem a (ih p (by rw [hsp]; exact List.mem_cons_of_mem h0 h) c hc)

theorem splitChar_eq_single (sep : Char) (l : List Char) (h : sep ∉ l) :
    splitChar sep l = [l] := by
  induction l with
  | nil => rfl
  | cons a rest ih =>
    simp only [List.mem_cons, not_or] at h
    unfold splitChar
    rw [if_neg (fun e => h.1 e.symm), ih h.2]

theorem pySliceFrom_subset (l : List Char) (a : Int) : pySliceFrom l a ⊆ l := by
  unfold pySliceFrom
  split
  · exact List.drop_subset _ l
  · exact List.drop_subset _ l

theorem pySliceTo_subset (l : List Char) (j : Int) : pySliceTo l j ⊆ l := by
  unfold pySliceTo
  split
  · exact List.take_subset _ l
  · exact List.take_subset _ l

theorem gps_core_nocolon (l : List Char) (hc : (':' : Char) ∉ l) :
    catchIndexError (buildGpsDict (splitChar ',' l) [])
        [("lat", Option.none), ("lng", Option.none)]
      = Except.ok [("lat", Option.none), ("lng", Option.none)] := by
  cases hsp : splitChar ',' l with
  | nil => exact absurd hsp (splitChar_ne_nil ',' l)
  | cons p ps =>
    have hpmem : p ∈ splitChar ',' l := by
      rw [hsp]; exact List.mem_cons_self p ps
    have hpc : (':' : Char) ∉ p :=
      fun hin => hc (splitChar_chars ',' l p hpmem ':' hin)
    unfold buildGpsDict
    rw [splitChar_eq_single ':' p hpc]
    rfl

/-- C4 amended: the English `gps_coordinates` catches only `IndexError`
(substituting `{'lat': None, 'lng': None}`), so the only exception it can
raise is the `ValueError` of a failed `float(...)` conversion — it does
raise on page content whose extracted snippet holds a colon-piece with a
non-numeric value part, so it is not exception-free; and whenever the raw
page text contains no colon at all (in particular when the
`map.addMarker` snippet is absent from ordinary colon-free text), it
returns `{'lat': None, 'lng': None}`. -/
theorem gps_eng_amended (raw_html : String) :
    (∀ e, gps_coordinates_eng raw_html = Except.error e → e.isValueErr = true)
    ∧ ((':' ∉ raw_html.toList) →
        gps_coordinates_eng raw_html
          = Except.ok [("lat", Option.none), ("lng", Option.none)]) := by
  constructor
  · intro e h
    unfold gps_coordinates_eng at h
    have hx := catchIndexError_err _ _ e h
    rcases buildGpsDict_err _ _ e hx.1 with hi | hv
    · exact absurd hi hx.2
    · exact hv
  · intro hc
    apply gps_core_nocolon
    intro hin
    exact hc (pySliceFrom_subset _ _ (pySliceTo_subset _ _ (List.mem_of_mem_filter hin)))

/-- C4 witness: on the colon-free page text "nocolon" (the `map.addMarker`
snippet absent), the amended statement's fallback conjunct yields the
all-`None` coordinate dict. -/
theorem gps_eng_amended_witness :
    gps_coordinates_eng "nocolon"
      = Except.ok [("lat", Option.none), ("lng", Option.none)] :=
  (gps_eng_amended "nocolon").2 (by decide)

/-- C4 counterexample: the claim says `gps_coordinates` never raises for
any page content, but on this page text — containing a well-placed
`map.addMarker` snippet whose value part "abc" is not a float literal —
the comprehension's `float(...)` raises an uncaught `ValueError`. -/
theorem gps_eng_raises_cex :
    gps_coordinates_eng "map.addMarker lat: abc ,title"
      = Except.error (PyErr.valueError "could not convert string to float: abc") := by
  rfl
